import Mathlib

/-!
Verification of the Gapminder dashboard (src/dash-app.py).

The program loads a tabular dataset (country-year indicators) and exposes
five callback handlers, each a pure function from the dataset and the
current widget values to a chart or table description.  We embed the data
model and the five handlers shallowly: a `Record` is one dataset row, a
dataset is a `List Record`, and each handler becomes a Lean function
returning a spec structure mirroring the arguments the source passes to
the rendering library.
-/

/-- One row of the Gapminder table.  Field order follows the CSV column
order (country, year, pop, continent, lifeExp, gdpPercap). -/
structure Record where
  country : String
  year : Int
  pop : Int
  continent : String
  lifeExp : Rat
  gdpPercap : Rat
deriving DecidableEq, Repr

instance : Inhabited Record := ⟨⟨"", 0, 0, "", 0, 0⟩⟩

/-- A heterogeneous cell value, as rendered into a table cell. -/
inductive Value where
  | str (s : String)
  | int (n : Int)
  | rat (q : Rat)
deriving DecidableEq, Repr

/-- The dataset's column names, in CSV order (`gapminder.columns`). -/
def columns : List String :=
  ["country", "year", "pop", "continent", "lifeExp", "gdpPercap"]

/-- `row.values()` for a record converted by `to_dict("records")`:
the cell values in column order. -/
def recordValues (r : Record) : List Value :=
  [.str r.country, .int r.year, .int r.pop, .str r.continent,
   .rat r.lifeExp, .rat r.gdpPercap]

/-- Look up a record's field by column name (dynamic column access). -/
def fieldValue (r : Record) (name : String) : Option Value :=
  if name = "country" then some (.str r.country)
  else if name = "year" then some (.int r.year)
  else if name = "pop" then some (.int r.pop)
  else if name = "continent" then some (.str r.continent)
  else if name = "lifeExp" then some (.rat r.lifeExp)
  else if name = "gdpPercap" then some (.rat r.gdpPercap)
  else none

/-- The rendered preview table: a header row and body rows of cells. -/
structure TableSpec where
  header : List String
  body : List (List Value)
deriving DecidableEq, Repr

/-- `update_table` (src/dash-app.py lines 109-119): takes the slider value,
builds `gapminder.head(rows)` and renders header = column names, body =
one row of cells per record. -/
def update_table (ds : List Record) (rows : Nat) : TableSpec :=
  let preview := ds.take rows
  { header := columns
    body := preview.map recordValues }

/-- A small sample dataset used to instantiate hypotheses concretely. -/
def sampleDs : List Record :=
  [⟨"Afghanistan", 1952, 8425333, "Asia", 28, 779⟩,
   ⟨"Afghanistan", 1957, 9240934, "Asia", 30, 820⟩,
   ⟨"Albania", 1952, 1282697, "Europe", 55, 1601⟩]

/-- C1: for a slider value in 5..50 step 5, the preview table's header is
the dataset's column list, its body is the first `min N |ds|` records in
dataset order, and it has exactly `min N |ds|` rows. -/
theorem update_table_preview_rows (ds : List Record) (N : Nat)
    (h5 : 5 ≤ N) (h50 : N ≤ 50) (hstep : N % 5 = 0) :
    (update_table ds N).header = columns ∧
    (update_table ds N).body = (ds.take N).map recordValues ∧
    (update_table ds N).body.length = min N ds.length := by
  refine ⟨rfl, rfl, ?_⟩
  simp [update_table]

/-- Witness for C1 at N = 10 on the sample dataset. -/
theorem update_table_preview_rows_witness :
    (5 ≤ 10 ∧ 10 ≤ 50 ∧ 10 % 5 = 0) ∧
    ((update_table sampleDs 10).header = columns ∧
     (update_table sampleDs 10).body = (sampleDs.take 10).map recordValues ∧
     (update_table sampleDs 10).body.length = min 10 sampleDs.length) :=
  ⟨by decide,
   update_table_preview_rows sampleDs 10 (by decide) (by decide) (by decide)⟩

/-- C10: body cells are aligned with the header: the cell at column
position `j` of body row `i` is the value of dataset record `i` at the
field named by the header entry at position `j`. -/
theorem update_table_cells_aligned (ds : List Record) (N i j : Nat)
    (hi : i < min N ds.length) (hj : j < columns.length) :
    ((update_table ds N).body[i]?.bind fun row => row[j]?) =
    (ds[i]?.bind fun r => fieldValue r (columns.getD j "")) := by
  have hiN : i < N := lt_of_lt_of_le hi (min_le_left _ _)
  have hid : i < ds.length := lt_of_lt_of_le hi (min_le_right _ _)
  have hbody : (update_table ds N).body[i]? = ds[i]?.map recordValues := by
    show ((ds.take N).map recordValues)[i]? = ds[i]?.map recordValues
    rw [List.getElem?_map, List.getElem?_take_of_lt hiN]
  rw [hbody, List.getElem?_eq_getElem hid]
  simp only [Option.map_some', Option.some_bind]
  have hj6 : j < 6 := by simpa [columns] using hj
  interval_cases j <;>
    simp [recordValues, fieldValue, columns]

/-- Witness for C10 at row 1, column 4 of the sample dataset. -/
theorem update_table_cells_aligned_witness :
    (1 < min 10 sampleDs.length ∧ 4 < columns.length) ∧
    ((update_table sampleDs 10).body[1]?.bind fun row => row[4]?) =
    (sampleDs[1]?.bind fun r => fieldValue r (columns.getD 4 "")) :=
  ⟨by decide, update_table_cells_aligned sampleDs 10 1 4 (by decide) (by decide)⟩

/-- The scatter chart description built by `px.scatter` in
`update_scatterplot`: the full dataset plus the encodings passed. -/
structure ScatterSpec where
  rows : List Record
  x : String
  y : String
  color : String
  sizeField : String
  hoverName : String
  title : String
deriving DecidableEq, Repr

/-- `update_scatterplot` (src/dash-app.py lines 127-137): plots the whole
dataset, x and y from the dropdowns, color by continent, size by
population, hover label by country. -/
def update_scatterplot (ds : List Record) (x_col y_col : String) : ScatterSpec :=
  { rows := ds
    x := x_col
    y := y_col
    color := "continent"
    sizeField := "pop"
    hoverName := "country"
    title := "Scatterplot of " ++ y_col ++ " vs " ++ x_col }

/-- The three numeric field names offered by the axis dropdowns. -/
def numericFields : List String := ["gdpPercap", "lifeExp", "pop"]

/-- C7: for any x/y selections from the three numeric fields (x = y
included), the scatter handler does not filter: its chart carries the
whole dataset, one point per record. -/
theorem update_scatterplot_no_filter (ds : List Record) (x_col y_col : String)
    (hx : x_col ∈ numericFields) (hy : y_col ∈ numericFields) :
    (update_scatterplot ds x_col y_col).rows = ds ∧
    (update_scatterplot ds x_col y_col).rows.length = ds.length := by
  exact ⟨rfl, rfl⟩

/-- Witness for C7 with x = y = "pop" on the sample dataset. -/
theorem update_scatterplot_no_filter_witness :
    ("pop" ∈ numericFields ∧ "pop" ∈ numericFields) ∧
    ((update_scatterplot sampleDs "pop" "pop").rows = sampleDs ∧
     (update_scatterplot sampleDs "pop" "pop").rows.length = sampleDs.length) :=
  ⟨by decide,
   update_scatterplot_no_filter sampleDs "pop" "pop" (by decide) (by decide)⟩

/-- The line chart description built by `px.line` in `update_trend_chart`. -/
structure LineSpec where
  rows : List Record
  x : String
  y : String
  title : String
  markers : Bool
deriving DecidableEq, Repr

/-- `update_trend_chart` (src/dash-app.py lines 144-153): keeps the rows
whose country equals the selection, in dataset order, and plots lifeExp
against year with markers. -/
def update_trend_chart (ds : List Record) (selected_country : String) : LineSpec :=
  let country_data := ds.filter (fun r => r.country == selected_country)
  { rows := country_data
    x := "year"
    y := "lifeExp"
    title := "Life Expectancy Over Time for " ++ selected_country
    markers := true }

/-- The dataset invariant the trend view relies on: whenever a row
precedes another row of the same country, its year is not larger.  The
gapminder CSV (one block of ascending years per country) satisfies it. -/
def byCountryYear (a b : Record) : Prop :=
  a.country = b.country → a.year ≤ b.year

instance : DecidableRel byCountryYear := fun a b => by
  unfold byCountryYear; infer_instance

/-- C2: for a country present in a dataset whose rows are year-ordered
within each country, the trend handler's rows are exactly the dataset
rows of that country, in dataset order, and their years are monotonically
increasing. -/
theorem update_trend_chart_rows (ds : List Record) (c : String)
    (hmem : c ∈ ds.map Record.country)
    (hsorted : List.Pairwise byCountryYear ds) :
    (update_trend_chart ds c).rows = ds.filter (fun r => r.country == c) ∧
    (∀ r ∈ (update_trend_chart ds c).rows, r.country = c) ∧
    List.Pairwise (fun a b => a.year ≤ b.year) (update_trend_chart ds c).rows := by
  refine ⟨rfl, ?_, ?_⟩
  · intro r hr
    have := (List.mem_filter.mp hr).2
    exact beq_iff_eq.mp this
  · have hs : List.Pairwise byCountryYear
        (ds.filter (fun r => r.country == c)) := hsorted.filter _
    refine hs.imp_of_mem ?_
    intro a b ha hb hab
    have hac : a.country = c := beq_iff_eq.mp (List.mem_filter.mp ha).2
    have hbc : b.country = c := beq_iff_eq.mp (List.mem_filter.mp hb).2
    exact hab (hac.trans hbc.symm)

/-- Witness for C2 on the sample dataset with country Afghanistan. -/
theorem update_trend_chart_rows_witness :
    ("Afghanistan" ∈ sampleDs.map Record.country ∧
     List.Pairwise byCountryYear sampleDs) ∧
    ((update_trend_chart sampleDs "Afghanistan").rows =
       sampleDs.filter (fun r => r.country == "Afghanistan") ∧
     (∀ r ∈ (update_trend_chart sampleDs "Afghanistan").rows,
       r.country = "Afghanistan") ∧
     List.Pairwise (fun a b => a.year ≤ b.year)
       (update_trend_chart sampleDs "Afghanistan").rows) :=
  ⟨⟨by decide, by decide⟩,
   update_trend_chart_rows sampleDs "Afghanistan" (by decide) (by decide)⟩

/-- C5: for a country absent from the dataset's country set, the trend
handler returns a chart over zero rows. -/
theorem update_trend_chart_absent (ds : List Record) (c : String)
    (habs : c ∉ ds.map Record.country) :
    (update_trend_chart ds c).rows = [] := by
  show ds.filter (fun r => r.country == c) = []
  rw [List.filter_eq_nil_iff]
  intro r hr hc
  exact habs (List.mem_map.mpr ⟨r, hr, beq_iff_eq.mp hc⟩)

/-- Witness for C5: "Atlantis" is not in the sample dataset. -/
theorem update_trend_chart_absent_witness :
    ("Atlantis" ∉ sampleDs.map Record.country) ∧
    (update_trend_chart sampleDs "Atlantis").rows = [] :=
  ⟨by decide, update_trend_chart_absent sampleDs "Atlantis" (by decide)⟩

/-- The choropleth description built by `px.choropleth` in
`update_map_chart`. -/
structure MapSpec where
  rows : List Record
  locations : String
  locationmode : String
  color : String
  hoverName : String
  title : String
deriving DecidableEq, Repr

/-- `update_map_chart` (src/dash-app.py lines 161-172): keeps the rows
whose year equals the slider value and maps them by country name, colored
by the selected variable.  The source parameter `variable` is a Lean
keyword, so it is named `varSel` here. -/
def update_map_chart (ds : List Record) (selected_year : Int)
    (varSel : String) : MapSpec :=
  let year_data := ds.filter (fun r => r.year == selected_year)
  { rows := year_data
    locations := "country"
    locationmode := "country names"
    color := varSel
    hoverName := "country"
    title := varSel ++ " in " ++ toString selected_year }

/-- C6: for a year present in the dataset and a variable among the three
numeric fields, the map handler's rows are exactly the dataset rows of
that year, so its row count is the number of records for that year. -/
theorem update_map_chart_rows (ds : List Record) (y : Int) (varSel : String)
    (hy : y ∈ ds.map Record.year) (hv : varSel ∈ numericFields) :
    (update_map_chart ds y varSel).rows = ds.filter (fun r => r.year == y) ∧
    (update_map_chart ds y varSel).rows.length =
      ds.countP (fun r => r.year == y) := by
  refine ⟨rfl, ?_⟩
  show (ds.filter (fun r => r.year == y)).length = _
  rw [List.countP_eq_length_filter]

/-- Witness for C6 at year 1952, variable lifeExp, on the sample dataset. -/
theorem update_map_chart_rows_witness :
    ((1952 : Int) ∈ sampleDs.map Record.year ∧ "lifeExp" ∈ numericFields) ∧
    ((update_map_chart sampleDs 1952 "lifeExp").rows =
       sampleDs.filter (fun r => r.year == 1952) ∧
     (update_map_chart sampleDs 1952 "lifeExp").rows.length =
       sampleDs.countP (fun r => r.year == 1952)) :=
  ⟨⟨by decide, by decide⟩,
   update_map_chart_rows sampleDs 1952 "lifeExp" (by decide) (by decide)⟩

/-!
Pearson correlation, as computed by `DataFrame.corr()`:
r(x, y) = cov(x, y) / (std x · std y).  Scaling numerator and denominator
by n² leaves `Sxy xs ys = n·Σxᵢyᵢ − Σxᵢ·Σyᵢ`, with
r = Sxy / (√Sxx · √Syy).  The entry is NaN — modelled as `none` — exactly
when a standard deviation is zero, which covers fewer than two rows and
constant columns.
-/

/-- `n·Σ xᵢyᵢ − Σxᵢ·Σyᵢ`: n² times the covariance of the two columns. -/
def Sxy (xs ys : List Rat) : Rat :=
  (xs.length : Rat) * (List.zipWith (fun a b => a * b) xs ys).sum
    - xs.sum * ys.sum

/-- `n·x² − 2·x·Σl + Σl²` is a sum of squares `Σ(x − lᵢ)²`, hence
nonnegative. -/
theorem quad_nonneg (l : List Rat) (x : Rat) :
    0 ≤ (l.length : Rat) * (x * x) - 2 * x * l.sum
        + (l.map (fun a => a * a)).sum := by
  induction l with
  | nil => simp
  | cons y t ih =>
    simp only [List.length_cons, List.sum_cons, List.map_cons, Nat.cast_add,
      Nat.cast_one]
    nlinarith [sq_nonneg (x - y)]

/-- Cauchy–Schwarz for a single column: `n·Σl² ≥ (Σl)²`. -/
theorem Sxx_aux_nonneg (l : List Rat) :
    0 ≤ (l.length : Rat) * (l.map (fun a => a * a)).sum - l.sum * l.sum := by
  induction l with
  | nil => simp
  | cons x t ih =>
    simp only [List.length_cons, List.sum_cons, List.map_cons, Nat.cast_add,
      Nat.cast_one]
    nlinarith [quad_nonneg t x]

/-- The diagonal statistic `Sxy l l` (n² times the variance) is
nonnegative. -/
theorem Sxx_nonneg (l : List Rat) : 0 ≤ Sxy l l := by
  unfold Sxy
  rw [List.zipWith_same]
  exact Sxx_aux_nonneg l

/-- With fewer than two samples the variance statistic vanishes. -/
theorem Sxx_small (l : List Rat) (h : l.length < 2) : Sxy l l = 0 := by
  match l with
  | [] => simp [Sxy]
  | [x] => simp [Sxy]
  | a :: b :: t => simp at h; omega

/-- The covariance statistic is symmetric when the columns have equal
length. -/
theorem Sxy_comm (xs ys : List Rat) (h : xs.length = ys.length) :
    Sxy xs ys = Sxy ys xs := by
  unfold Sxy
  rw [h, List.zipWith_comm_of_comm _ mul_comm]
  ring

/-- One Pearson correlation entry; `none` models the NaN that pandas
produces when either standard deviation is zero (constant column, one
sample, or an empty selection). -/
noncomputable def corrEntry (xs ys : List Rat) : Option ℝ :=
  if Sxy xs xs ≠ 0 ∧ Sxy ys ys ≠ 0 then
    some ((Sxy xs ys : ℝ) / (Real.sqrt (Sxy xs xs) * Real.sqrt (Sxy ys ys)))
  else none

theorem corrEntry_self (xs : List Rat) :
    corrEntry xs xs = some 1 ∨ corrEntry xs xs = none := by
  by_cases h : Sxy xs xs = 0
  · right
    simp [corrEntry, h]
  · left
    have hpos : 0 < Sxy xs xs := lt_of_le_of_ne (Sxx_nonneg xs) (Ne.symm h)
    have hposR : (0 : ℝ) < (Sxy xs xs : ℝ) := by exact_mod_cast hpos
    simp only [corrEntry, h, ne_eq, not_false_iff, and_self, if_true,
      Option.some_inj]
    rw [Real.mul_self_sqrt hposR.le, div_self hposR.ne']

theorem corrEntry_comm (xs ys : List Rat) (h : xs.length = ys.length) :
    corrEntry xs ys = corrEntry ys xs := by
  have hxy : Sxy xs ys = Sxy ys xs := Sxy_comm xs ys h
  by_cases h1 : Sxy xs xs = 0 <;> by_cases h2 : Sxy ys ys = 0 <;>
    simp [corrEntry, h1, h2, hxy, mul_comm]

/-- The numeric columns fed to `corr()`, in source order
`["gdpPercap", "lifeExp", "pop"]`. -/
def corrCols : Fin 3 → Record → Rat
  | 0 => Record.gdpPercap
  | 1 => Record.lifeExp
  | 2 => fun r => (r.pop : Rat)

/-- The heatmap description built by `px.imshow` in
`update_correlation_matrix`. -/
structure CorrSpec where
  matrix : Fin 3 → Fin 3 → Option ℝ
  title : String
  textAuto : Bool

/-- `update_correlation_matrix` (src/dash-app.py lines 179-188): keeps
the rows of the selected continent and renders the 3×3 Pearson
correlation matrix of gdpPercap, lifeExp and pop over them. -/
noncomputable def update_correlation_matrix (ds : List Record)
    (selected_continent : String) : CorrSpec :=
  let continent_data := ds.filter (fun r => r.continent == selected_continent)
  { matrix := fun i j =>
      corrEntry (continent_data.map (corrCols i))
                (continent_data.map (corrCols j))
    title := "Correlation Matrix for " ++ selected_continent
    textAuto := true }

/-- C3: with at least two rows for the selected continent, the 3×3
correlation matrix is symmetric and every diagonal entry is 1 or the NaN
fallback. -/
theorem update_correlation_matrix_sym_diag (ds : List Record) (cont : String)
    (h2 : 2 ≤ (ds.filter (fun r => r.continent == cont)).length) :
    (∀ i j, (update_correlation_matrix ds cont).matrix i j =
            (update_correlation_matrix ds cont).matrix j i) ∧
    (∀ i, (update_correlation_matrix ds cont).matrix i i = some 1 ∨
          (update_correlation_matrix ds cont).matrix i i = none) := by
  constructor
  · intro i j
    exact corrEntry_comm _ _ (by simp)
  · intro i
    exact corrEntry_self _

/-- Witness for C3: the sample dataset has two Asia rows. -/
theorem update_correlation_matrix_sym_diag_witness :
    2 ≤ (sampleDs.filter (fun r => r.continent == "Asia")).length ∧
    ((∀ i j, (update_correlation_matrix sampleDs "Asia").matrix i j =
             (update_correlation_matrix sampleDs "Asia").matrix j i) ∧
     (∀ i, (update_correlation_matrix sampleDs "Asia").matrix i i = some 1 ∨
           (update_correlation_matrix sampleDs "Asia").matrix i i = none)) :=
  ⟨by decide, update_correlation_matrix_sym_diag sampleDs "Asia" (by decide)⟩

/-- C4: with fewer than two rows for the selected continent, the handler
still returns a total chart description in which every correlation entry
is the NaN fallback. -/
theorem update_correlation_matrix_degenerate (ds : List Record) (cont : String)
    (h : (ds.filter (fun r => r.continent == cont)).length < 2) :
    ∀ i j, (update_correlation_matrix ds cont).matrix i j = none := by
  intro i j
  have hx : Sxy ((ds.filter (fun r => r.continent == cont)).map (corrCols i))
      ((ds.filter (fun r => r.continent == cont)).map (corrCols i)) = 0 :=
    Sxx_small _ (by simpa using h)
  show corrEntry _ _ = none
  simp [corrEntry, hx]

/-- Witness for C4: the sample dataset has no Oceania rows. -/
theorem update_correlation_matrix_degenerate_witness :
    (sampleDs.filter (fun r => r.continent == "Oceania")).length < 2 ∧
    ∀ i j, (update_correlation_matrix sampleDs "Oceania").matrix i j = none :=
  ⟨by decide, update_correlation_matrix_degenerate sampleDs "Oceania" (by decide)⟩

/-!
Reactive update model, for the purity and no-mutation claims.  A state
holds the dataset loaded at startup and the five displayed outputs; a
call names a handler and the widget values it fires with; a step replaces
exactly the output slot bound to that handler.
-/

/-- A displayed output: one of the five chart/table descriptions. -/
inductive OutSpec where
  | tableO (t : TableSpec)
  | scatterO (s : ScatterSpec)
  | trendO (s : LineSpec)
  | mapO (s : MapSpec)
  | corrO (s : CorrSpec)

/-- One widget interaction: which handler fires and with what values. -/
inductive Call where
  | tableC (rows : Nat)
  | scatterC (x_col y_col : String)
  | trendC (selected_country : String)
  | mapC (selected_year : Int) (varSel : String)
  | corrC (selected_continent : String)

/-- The output slot a call's handler is bound to. -/
def Call.key : Call → Fin 5
  | .tableC _ => 0
  | .scatterC _ _ => 1
  | .trendC _ => 2
  | .mapC _ _ => 3
  | .corrC _ => 4

/-- Dispatch: the output a handler computes, a function of the dataset
and the call's widget values alone. -/
noncomputable def handlerOut (ds : List Record) : Call → OutSpec
  | .tableC rows => .tableO (update_table ds rows)
  | .scatterC x_col y_col => .scatterO (update_scatterplot ds x_col y_col)
  | .trendC c => .trendO (update_trend_chart ds c)
  | .mapC y v => .mapO (update_map_chart ds y v)
  | .corrC c => .corrO (update_correlation_matrix ds c)

/-- Application state: the dataset loaded once at startup plus the five
currently displayed outputs. -/
structure AppState where
  data : List Record
  outputs : Fin 5 → OutSpec

/-- The default widget values each output first renders with: slider 10,
axes gdpPercap/lifeExp, country United States, year 2007 with variable
gdpPercap, continent Asia. -/
def defaultCall : Fin 5 → Call :=
  ![.tableC 10, .scatterC "gdpPercap" "lifeExp", .trendC "United States",
    .mapC 2007 "gdpPercap", .corrC "Asia"]

/-- Startup state: the dataset and the initial render of every output. -/
noncomputable def initState (ds : List Record) : AppState :=
  { data := ds
    outputs := fun k => handlerOut ds (defaultCall k) }

/-- One reactive update: the engine invokes the handler bound to the
changed input and replaces that output slot. -/
noncomputable def step (s : AppState) (c : Call) : AppState :=
  { data := s.data
    outputs := Function.update s.outputs c.key (handlerOut s.data c) }

/-- A session: a sequence of widget interactions applied in order. -/
noncomputable def run (s : AppState) (cs : List Call) : AppState :=
  cs.foldl step s

theorem run_data (s : AppState) (cs : List Call) : (run s cs).data = s.data := by
  induction cs generalizing s with
  | nil => rfl
  | cons c t ih => exact (ih (step s c)).trans rfl

/-- C9: no sequence of handler invocations with any widget values mutates
the dataset: it stays the table loaded at startup. -/
theorem handlers_no_mutation (ds : List Record) (cs : List Call) :
    (run (initState ds) cs).data = ds :=
  run_data (initState ds) cs

/-- C8: handlers are pure and history-free: after any two call histories,
firing the same call with the same widget values over the same dataset
displays the same output, namely a function of (dataset, widget values)
only. -/
theorem handlers_pure (ds : List Record) (cs cs' : List Call) (c : Call) :
    (run (initState ds) (cs ++ [c])).outputs c.key =
      (run (initState ds) (cs' ++ [c])).outputs c.key ∧
    (run (initState ds) (cs ++ [c])).outputs c.key = handlerOut ds c := by
  have key : ∀ l : List Call,
      (run (initState ds) (l ++ [c])).outputs c.key = handlerOut ds c := by
    intro l
    have h1 : run (initState ds) (l ++ [c]) = step (run (initState ds) l) c := by
      simp [run, List.foldl_append]
    rw [h1]
    simp [step, Function.update_same, run_data, initState]
  exact ⟨(key cs).trans (key cs').symm, key cs⟩
